import Mathlib

/-!
Verification of the aws-rdsportal-backend service against its
natural-language specification.  The Python source is shallowly embedded:
pure helpers become Lean functions, external effects (the DynamoDB store,
the S3 object store, the SSM Parameter Store, the local env file) become
explicit function/record parameters, and fallible code returns `Except`.
-/

set_option maxRecDepth 100000

namespace RdsPortal

/-! ## S3 URI parsing (`app/services/project_service.py`, `_parse_s3_uri`)

`re.match(r"s3://([^/]+)/(.+)", s3_uri)`: the match is anchored at the
start only.  `[^/]+` is a maximal run of non-slash characters (newlines
included), forcing the separating `/` to be the first slash after the
scheme; `.+` then consumes the remaining characters up to (but excluding)
a newline, and must be non-empty.  We model strings as `List Char`. -/

/-- Result of `re.match(r"s3://([^/]+)/(.+)", uri)`: `some (bucket, key)`
on a match, `none` otherwise. -/
def s3Match (uri : List Char) : Option (List Char × List Char) :=
  match uri with
  | 's' :: '3' :: ':' :: '/' :: '/' :: rest =>
    let bucket := rest.takeWhile (fun c => c ≠ '/')
    match rest.dropWhile (fun c => c ≠ '/') with
    | '/' :: after =>
      let key := after.takeWhile (fun c => c ≠ '\n')
      if bucket = [] ∨ key = [] then none else some (bucket, key)
    | _ => none
  | _ => none

/-- Lowercase ASCII letter or digit, the class `[a-z0-9]`. -/
def isLowerAlnum (c : Char) : Bool :=
  ('a' ≤ c && c ≤ 'z') || ('0' ≤ c && c ≤ '9')

/-- The class `[a-z0-9.-]`. -/
def isBucketMid (c : Char) : Bool :=
  isLowerAlnum c || c = '.' || c = '-'

/-- The regex `[a-z0-9][a-z0-9.-]{1,61}[a-z0-9]` matched against the whole
string: 3–63 characters, first and last lowercase alphanumeric, middle
characters from `[a-z0-9.-]`. -/
def bucketWholeMatch (s : List Char) : Bool :=
  decide (3 ≤ s.length) && decide (s.length ≤ 63) &&
    s.head?.all isLowerAlnum && s.getLast?.all isLowerAlnum &&
    ((s.drop 1).dropLast.all isBucketMid)

/-- Python's `re.match(r"^[a-z0-9][a-z0-9.-]{1,61}[a-z0-9]$", s)`:
`$` also matches just before a single newline at the very end of the
string, so one trailing newline is tolerated. -/
def bucketPyMatch (s : List Char) : Bool :=
  bucketWholeMatch (if s.getLast? = some '\n' then s.dropLast else s)

/-- Does the list contain `".."` as a contiguous substring? -/
def hasDotDot : List Char → Bool
  | '.' :: '.' :: _ => true
  | _ :: t => hasDotDot t
  | [] => false

/-- Error cases of `_parse_s3_uri` (each a `ValueError` in the source). -/
inductive S3ParseError where
  | invalidUri
  | invalidBucket
  | pathTraversal
  deriving DecidableEq, Repr

/-- `ProjectService._parse_s3_uri`: regex-parse the URI, validate the
bucket name against the AWS naming regex, reject keys containing `..`
or starting with `/`, and otherwise return `(bucket, key)`. -/
def parseS3Uri (uri : String) : Except S3ParseError (String × String) :=
  match s3Match uri.data with
  | none => .error .invalidUri
  | some (bucket, key) =>
    if !(bucketPyMatch bucket) then .error .invalidBucket
    else if hasDotDot key || key.head? == some '/' then .error .pathTraversal
    else .ok (⟨bucket⟩, ⟨key⟩)

example : parseS3Uri "s3://my-bucket/path/to/file.json" =
    .ok ("my-bucket", "path/to/file.json") := by rfl
example : parseS3Uri "s3://my-bucket/../etc/passwd" = .error .pathTraversal := by rfl
example : parseS3Uri "s3://my-bucket//etc/passwd" = .error .pathTraversal := by rfl
example : parseS3Uri "s3://MyBucket/key" = .error .invalidBucket := by rfl
example : parseS3Uri "s3://ab/key" = .error .invalidBucket := by rfl
example : parseS3Uri "not-a-uri" = .error .invalidUri := by rfl

/-- `ProjectService._get_s3_content`, after the project item has yielded
the reference field: a falsy reference is a 404; a `ValueError` from
`_parse_s3_uri` is mapped to a 500 without any object-store read; a
missing object is a 404; otherwise the content is returned.  The
object-store read is the explicit parameter `fetch`. -/
def getS3Content {α : Type} (fetch : String → String → Option α)
    (s3Ref : Option String) : Except Nat α :=
  match s3Ref with
  | none => .error 404
  | some r =>
    match parseS3Uri r with
    | .error _ => .error 500
    | .ok (bucket, key) =>
      match fetch bucket key with
      | none => .error 404
      | some content => .ok content

/-! ## Decimal rendering of identifiers

`f"PROJ#{project_id}"` interpolates the Python `str()` of an `int`.  We
embed that rendering explicitly so that its injectivity (the heart of the
tenant-isolation claim) can be proved. -/

/-- Base-10 digits, most significant first; structural recursion on a
fuel argument so the definition reduces definitionally (the fuel is
always sufficient: the value shrinks strictly at every step). -/
def natDigitsAux : Nat → Nat → List Nat
  | 0, n => [n]
  | fuel + 1, n => if n < 10 then [n] else natDigitsAux fuel (n / 10) ++ [n % 10]

/-- Base-10 digits of a natural number, most significant first. -/
def natDigits (n : Nat) : List Nat := natDigitsAux n n

/-- The ASCII character of a single digit. -/
def digitChar (d : Nat) : Char := Char.ofNat (48 + d)

/-- Python `str()` of a non-negative integer. -/
def natRepr (n : Nat) : String := ⟨(natDigits n).map digitChar⟩

/-- Python `str()` of an integer. -/
def intRepr (i : Int) : String :=
  if i < 0 then "-" ++ natRepr i.natAbs else natRepr i.natAbs

example : intRepr 42 = "42" := by rfl
example : intRepr 0 = "0" := by rfl
example : intRepr (-17) = "-17" := by rfl

/-! ## Project item lookup (`ProjectService._get_project_item`) -/

/-- A DynamoDB item: an attribute map, here an association list.  Python
truthiness of a dict is non-emptiness. -/
abbrev ProjItem := List (String × String)

/-- Modelled from the spec: `AWSClients.dynamodb_get_item` is declared on
the cached-client manager in `app/core/aws_clients.py` but its body is not
under `src/`.  The spec says the key-value store holds "items keyed by
`(USER#<id>, PROJ#<id>)`", so the call is modelled as an exact-key lookup
in a per-table key-value store. -/
def dynamodbGetItem (store : String → String → String → Option ProjItem)
    (tableName pk sk : String) : Option ProjItem :=
  store tableName pk sk

/-- `ProjectService._get_project_item`: build the composite key
`(USER#user_id, PROJ#project_id)`, read exactly that key, and raise
HTTP 404 when the result is falsy. -/
def getProjectItem (store : String → String → String → Option ProjItem)
    (tableName : String) (projectId : Int) (userId : String) : Except Nat ProjItem :=
  let pk := "USER#" ++ userId
  let sk := "PROJ#" ++ intRepr projectId
  match dynamodbGetItem store tableName pk sk with
  | none => .error 404
  | some item => if item = [] then .error 404 else .ok item

/-! ## Sensitive-field masking (`app/core/logging.py`) -/

/-- A value in a structlog event dict: either a string or some non-string
payload (booleans, numbers, nested objects — the masker only distinguishes
strings). -/
inductive LogValue where
  | str (s : String)
  | other (tag : Nat)
  deriving DecidableEq, Repr

/-- The `SENSITIVE_FIELDS` set from `app/core/logging.py`. -/
def SENSITIVE_FIELDS : List String :=
  ["password", "new_password", "old_password", "token", "access_token",
   "refresh_token", "id_token", "secret", "secret_hash", "authorization",
   "api_key", "client_secret", "verification_code", "code",
   "confirmation_code", "cognito_app_client_secret",
   "aws_secret_access_key", "aws_session_token", "database_url",
   "db_password", "connection_string", "sms_app_key", "sms_sdk_app_id",
   "credit_card", "ssn", "phone_number"]

/-- `str.lower()` (per-character lowering; all sensitive keys are ASCII). -/
def pyLower (s : String) : String := ⟨s.data.map Char.toLower⟩

/-- The rewrite applied to the value under a sensitive key:
`value[:4] + "****" + value[-4:]` for strings longer than 8 characters,
`"****"` for everything else. -/
def maskValue : LogValue → LogValue
  | .str s =>
    if 8 < s.length then .str (s.take 4 ++ "****" ++ s.drop (s.length - 4))
    else .str "****"
  | .other _ => .str "****"

/-- `mask_sensitive_data`: rewrite every entry whose lowercased key is in
`SENSITIVE_FIELDS`. -/
def maskSensitiveData (eventDict : List (String × LogValue)) : List (String × LogValue) :=
  eventDict.map fun kv =>
    if SENSITIVE_FIELDS.contains (pyLower kv.1) then (kv.1, maskValue kv.2) else kv

example : maskSensitiveData [("Password", .str "supersecret"), ("user", .str "bob")] =
    [("Password", .str "supe****cret"), ("user", .str "bob")] := by rfl
example : maskSensitiveData [("token", .str "short"), ("code", .other 7)] =
    [("token", .str "****"), ("code", .str "****")] := by rfl

/-! ## Paginated project listing (`app/api/v1/projects.py`) -/

/-- The relational `Project` row, restricted to the fields the list
endpoint touches (`created_at` modelled as an integer timestamp). -/
structure Project where
  project_id : Int
  user_id : String
  created_at : Int
  deriving DecidableEq, Repr

/-- The optional query filters of the list endpoint. -/
structure ProjectQueryFilters where
  user_id : Option String
  project_id : Option Int
  start_time : Option Int
  end_time : Option Int

/-- The `ProjectListResponse` payload. -/
structure ProjectListResponse where
  items : List Project
  page : Nat
  page_size : Nat
  total : Nat
  total_pages : Nat
  deriving DecidableEq, Repr

/-- `list_projects`: apply the filters (guarded by Python truthiness: a
`None` or `0` project id and a `None` or empty user id filter nothing;
datetimes are truthy exactly when present), count, sort by `created_at`
descending, apply offset/limit, and compute
`ceil(total / page_size) if page_size != 0 else 0` (exact ceiling
division; Python computes it through `math.ceil` on the true quotient). -/
def listProjects (db : List Project) (page pageSize : Nat)
    (f : ProjectQueryFilters) : ProjectListResponse :=
  let offset := (page - 1) * pageSize
  let q1 : List Project := match f.project_id with
    | some pid => if pid ≠ 0 then db.filter (fun p => p.project_id == pid) else db
    | none => db
  let q2 : List Project := match f.user_id with
    | some uid => if uid ≠ "" then q1.filter (fun p => p.user_id == uid) else q1
    | none => q1
  let q3 : List Project := match f.start_time, f.end_time with
    | some st, some et =>
      q2.filter (fun p => decide (st ≤ p.created_at) && decide (p.created_at ≤ et))
    | some st, none => q2.filter (fun p => decide (st ≤ p.created_at))
    | none, some et => q2.filter (fun p => decide (p.created_at ≤ et))
    | none, none => q2
  let total := q3.length
  let sorted := q3.mergeSort (fun a b => decide (b.created_at ≤ a.created_at))
  let items := (sorted.drop offset).take pageSize
  let totalPages := if pageSize ≠ 0 then (total + pageSize - 1) / pageSize else 0
  { items := items, page := page, page_size := pageSize,
    total := total, total_pages := totalPages }

/-! ## Generic repository (`app/repositories/base.py`) -/

/-- Remove the first element satisfying `p` (SQLAlchemy `session.delete`
of the entity found by primary key). -/
def removeFirst {α : Type} (p : α → Bool) : List α → List α
  | [] => []
  | x :: xs => if p x then xs else x :: removeFirst p xs

/-- `SQLAlchemyRepository.get_by_id`: primary-key lookup.  The session's
table is a list of `(primary key, payload)` rows. -/
def repoGetById {α : Type} (rows : List (Nat × α)) (id : Nat) : Option (Nat × α) :=
  rows.find? (fun r => r.1 == id)

/-- `SQLAlchemyRepository.delete`: look the entity up by primary key;
when found, delete it and commit, returning `True`; otherwise return
`False` without touching the session. -/
def repoDelete {α : Type} (rows : List (Nat × α)) (id : Nat) : List (Nat × α) × Bool :=
  match repoGetById rows id with
  | some _ => (removeFirst (fun r => r.1 == id) rows, true)
  | none => (rows, false)

/-- `SQLAlchemyRepository.exists`: `get_by_id(id) is not None`. -/
def repoExists {α : Type} (rows : List (Nat × α)) (id : Nat) : Bool :=
  (repoGetById rows id).isSome

/-! ## Cognito retry policy (`app/core/cognito.py`) -/

/-- The exception taxonomy seen by the retry decorator: the two transport
errors from `RETRYABLE_EXCEPTIONS`, and the business exceptions raised by
the client methods. -/
inductive CognitoError where
  | endpointConnectionError
  | connectTimeoutError
  | cognitoException (msg : String)
  | invalidCredentials
  | userNotFound
  | userNotConfirmed
  deriving DecidableEq, Repr

/-- `retry_if_exception_type(RETRYABLE_EXCEPTIONS)` with
`RETRYABLE_EXCEPTIONS = (EndpointConnectionError, ConnectTimeoutError)`. -/
def isRetryableCognito : CognitoError → Bool
  | .endpointConnectionError => true
  | .connectTimeoutError => true
  | _ => false

/-- The tenacity retry loop: `attempt` is the 1-based attempt number,
`f attempt` the outcome of that attempt.  `stop_after_attempt(max)`
allows a retry only while the attempt number is below `max`; with
`reraise=True` the last exception is re-raised.  Returns the final
outcome together with the number of attempts performed. -/
def retryCall {E α : Type} (retryOn : E → Bool) (maxAttempts : Nat)
    (f : Nat → Except E α) (attempt : Nat) : Except E α × Nat :=
  match f attempt with
  | .ok a => (.ok a, attempt)
  | .error e =>
    if h : retryOn e = true ∧ attempt < maxAttempts then
      retryCall retryOn maxAttempts f (attempt + 1)
    else (.error e, attempt)
termination_by maxAttempts + 1 - attempt
decreasing_by omega

/-- `cognito_retry` applied to an operation: at most 3 attempts, retrying
only on the transport errors. -/
def cognitoRetryCall {α : Type} (f : Nat → Except CognitoError α) :
    Except CognitoError α × Nat :=
  retryCall isRetryableCognito 3 f 1

/-- The `ClientError` → exception mapping of `CognitoClient.sign_in`. -/
def mapSignInClientError (code msg : String) : CognitoError :=
  if code == "NotAuthorizedException" then .invalidCredentials
  else if code == "UserNotFoundException" then .userNotFound
  else if code == "UserNotConfirmedException" then .userNotConfirmed
  else .cognitoException ("Sign in failed: " ++ msg)

/-! ## Config resolution (`aws-rdsportal-backend/app/core/config.py`) -/

/-- UTF-8 encoding of one character. -/
def utf8Bytes (c : Char) : List Nat :=
  let n := c.toNat
  if n < 0x80 then [n]
  else if n < 0x800 then
    [0xc0 ||| (n >>> 6), 0x80 ||| (n &&& 0x3f)]
  else if n < 0x10000 then
    [0xe0 ||| (n >>> 12), 0x80 ||| ((n >>> 6) &&& 0x3f), 0x80 ||| (n &&& 0x3f)]
  else
    [0xf0 ||| (n >>> 18), 0x80 ||| ((n >>> 12) &&& 0x3f),
     0x80 ||| ((n >>> 6) &&& 0x3f), 0x80 ||| (n &&& 0x3f)]

/-- UTF-8 bytes of a string. -/
def strBytes (s : String) : List Nat := (s.data.map utf8Bytes).flatten

/-- Uppercase hexadecimal digit. -/
def hexDigitChar (n : Nat) : Char :=
  if n < 10 then Char.ofNat (48 + n) else Char.ofNat (55 + n)

/-- A byte `urllib.parse.quote` leaves unescaped with `safe=""`:
exactly the always-safe set `[A-Za-z0-9_.~-]`. -/
def isQuoteSafeByte (b : Nat) : Bool :=
  (65 ≤ b && b ≤ 90) || (97 ≤ b && b ≤ 122) || (48 ≤ b && b ≤ 57) ||
    b == 45 || b == 46 || b == 95 || b == 126

/-- `urllib.parse.quote(s, safe="")`: percent-encode every UTF-8 byte
outside the always-safe set, with uppercase hex. -/
def pyQuote (s : String) : String :=
  ⟨((strBytes s).map fun b =>
      if isQuoteSafeByte b then [Char.ofNat b]
      else ['%', hexDigitChar (b / 16), hexDigitChar (b % 16)]).flatten⟩

example : pyQuote "p@ss/w:rd" = "p%40ss%2Fw%3Ard" := by rfl
example : pyQuote "abc-123_~." = "abc-123_~." := by rfl

/-- The mutable fields of the pydantic `Settings` object that the
resolution logic touches. -/
structure Settings where
  ENVIRONMENT : String
  USE_AWS_PARAMETER_STORE : Bool
  DATABASE_URL : String
  DB_HOST : String
  DB_PORT : String
  DB_USERNAME : String
  DB_PASSWORD : String
  DB_NAME : String
  deriving DecidableEq, Repr

/-- The external inputs of `get_settings`: the Parameter Store response,
and the local `.env.<environment>` file (existence plus the variables
`load_dotenv` would inject). -/
structure ConfigEnv where
  psParams : List (String × String)
  envFileExists : Bool
  envFileGet : String → Option String

/-- Python dict lookup on the Parameter Store result. -/
def psDictGet (params : List (String × String)) (k : String) : Option String :=
  (params.find? (fun kv => kv.1 == k)).map (fun kv => kv.2)

/-- `ENVIRONMENT in ("production", "staging")`. -/
def isProdOrStaging (e : String) : Bool :=
  e == "production" || e == "staging"

/-- The connection string built from host/credential fields (both the
Secrets-Manager branch and the local fallback use this exact shape). -/
def buildDatabaseUrl (username password host port name : String) : String :=
  "postgresql://" ++ username ++ ":" ++ pyQuote password ++ "@" ++ host ++
    ":" ++ port ++ "/" ++ name ++ "?sslmode=require"

/-- The Parameter Store block of `get_settings`: when enabled, an empty
response is a fatal `RuntimeError`; a present, non-empty `database_url`
parameter overwrites `DATABASE_URL`. -/
def applyParameterStore (s : Settings) (env : ConfigEnv) : Except String Settings :=
  if s.USE_AWS_PARAMETER_STORE then
    if env.psParams = [] then
      .error "failed to load database config from AWS Parameter Store"
    else
      match psDictGet env.psParams "database_url" with
      | some u => if u ≠ "" then .ok { s with DATABASE_URL := u } else .ok s
      | none => .ok s
  else .ok s

/-- The Secrets Manager block of `get_settings`: whenever both `DB_HOST`
and `DB_PASSWORD` are non-empty, rebuild `DATABASE_URL` from the injected
fields (unconditionally overwriting any earlier value). -/
def applySecretsManager (s : Settings) : Settings :=
  if s.DB_HOST ≠ "" ∧ s.DB_PASSWORD ≠ "" then
    { s with DATABASE_URL :=
        buildDatabaseUrl s.DB_USERNAME s.DB_PASSWORD s.DB_HOST s.DB_PORT s.DB_NAME }
  else s

/-- `x = x or os.getenv(key, dflt)` after `load_dotenv(env_file)`. -/
def orElseEnv (cur : String) (env : ConfigEnv) (key dflt : String) : String :=
  if cur ≠ "" then cur else (env.envFileGet key).getD dflt

/-- The final fallback / validation block of `get_settings`: nothing to
do when a connection string was resolved; otherwise production/staging
fail fatally, a missing local env file fails fatally, the `DB_*` fields
are filled from the env file, and either all of host/username/password
are present (and the URL is built) or the startup fails fatally. -/
def applyFallback (s : Settings) (env : ConfigEnv) : Except String Settings :=
  if s.DATABASE_URL ≠ "" then .ok s
  else if isProdOrStaging s.ENVIRONMENT then
    .error "DATABASE_URL not configured; production/staging require Parameter Store or Secrets Manager"
  else if !env.envFileExists then
    .error "DATABASE_URL not configured and local env file does not exist"
  else
    let t : Settings := { s with
      DB_HOST := orElseEnv s.DB_HOST env "DB_HOST" "",
      DB_PORT := orElseEnv s.DB_PORT env "DB_PORT" "5432",
      DB_USERNAME := orElseEnv s.DB_USERNAME env "DB_USERNAME" "",
      DB_PASSWORD := orElseEnv s.DB_PASSWORD env "DB_PASSWORD" "",
      DB_NAME := orElseEnv s.DB_NAME env "DB_NAME" "postgres" }
    if t.DB_HOST ≠ "" ∧ t.DB_USERNAME ≠ "" ∧ t.DB_PASSWORD ≠ "" then
      .ok { t with DATABASE_URL :=
        buildDatabaseUrl t.DB_USERNAME t.DB_PASSWORD t.DB_HOST t.DB_PORT t.DB_NAME }
    else .error "local env file lacks DB_HOST / DB_USERNAME / DB_PASSWORD"

/-- `get_settings`: the environment constraint, then the Parameter Store,
Secrets Manager and fallback blocks in source order.  A `.error` is a
`RuntimeError` aborting startup. -/
def getSettings (s : Settings) (env : ConfigEnv) : Except String Settings :=
  if isProdOrStaging s.ENVIRONMENT ∧ !s.USE_AWS_PARAMETER_STORE then
    .error "production/staging must enable USE_AWS_PARAMETER_STORE"
  else
    match applyParameterStore s env with
    | .error e => .error e
    | .ok s1 => applyFallback (applySecretsManager s1) env

/-- The settings state just after the Parameter Store and Secrets Manager
blocks, as a total function (identity on the Parameter Store error path,
which is covered separately). -/
def resolvedAfterSM (s : Settings) (env : ConfigEnv) : Settings :=
  applySecretsManager (match applyParameterStore s env with
    | .ok t => t
    | .error _ => s)

/-- The fallback-completeness condition: after merging with the env file,
`DB_HOST`, `DB_USERNAME` and `DB_PASSWORD` are all non-empty. -/
def fallbackFieldsOk (t : Settings) (env : ConfigEnv) : Prop :=
  orElseEnv t.DB_HOST env "DB_HOST" "" ≠ "" ∧
    orElseEnv t.DB_USERNAME env "DB_USERNAME" "" ≠ "" ∧
    orElseEnv t.DB_PASSWORD env "DB_PASSWORD" "" ≠ ""

/-! ## SHA-256 / HMAC / Base64 (`CognitoClient._get_secret_hash`)

`hmac.new(key, message, digestmod=hashlib.sha256)` and
`base64.b64encode` are standard-library primitives; they are embedded as
the standard algorithms (FIPS 180-4, RFC 2104, RFC 4648) over byte lists,
32-bit words being `Nat` reduced modulo `2^32`. -/

/-- The 64 SHA-256 round constants (decimal rendering of the FIPS 180-4
table). -/
def sha256K : List Nat :=
  [1116352408, 1899447441, 3049323471, 3921009573, 961987163,
   1508970993, 2453635748, 2870763221, 3624381080, 310598401,
   607225278, 1426881987, 1925078388, 2162078206, 2614888103,
   3248222580, 3835390401, 4022224774, 264347078, 604807628,
   770255983, 1249150122, 1555081692, 1996064986, 2554220882,
   2821834349, 2952996808, 3210313671, 3336571891, 3584528711,
   113926993, 338241895, 666307205, 773529912, 1294757372,
   1396182291, 1695183700, 1986661051, 2177026350, 2456956037,
   2730485921, 2820302411, 3259730800, 3345764771, 3516065817,
   3600352804, 4094571909, 275423344, 430227734, 506948616,
   659060556, 883997877, 958139571, 1322822218, 1537002063,
   1747873779, 1955562222, 2024104815, 2227730452, 2361852424,
   2428436474, 2756734187, 3204031479, 3329325298]

/-- The SHA-256 initial hash value (decimal rendering). -/
def sha256H0 : List Nat :=
  [1779033703, 3144134277, 1013904242, 2773480762,
   1359893119, 2600822924, 528734635, 1541459225]

/-- 32-bit rotate right. -/
def rotr32 (x n : Nat) : Nat := ((x >>> n) ||| (x <<< (32 - n))) % 4294967296

/-- σ0 of the message schedule. -/
def ssig0 (x : Nat) : Nat := rotr32 x 7 ^^^ rotr32 x 18 ^^^ (x >>> 3)

/-- σ1 of the message schedule. -/
def ssig1 (x : Nat) : Nat := rotr32 x 17 ^^^ rotr32 x 19 ^^^ (x >>> 10)

/-- Σ0 of the compression function. -/
def bsig0 (x : Nat) : Nat := rotr32 x 2 ^^^ rotr32 x 13 ^^^ rotr32 x 22

/-- Σ1 of the compression function. -/
def bsig1 (x : Nat) : Nat := rotr32 x 6 ^^^ rotr32 x 11 ^^^ rotr32 x 25

/-- Ch(x, y, z). -/
def shaCh (x y z : Nat) : Nat := (x &&& y) ^^^ ((x ^^^ 0xffffffff) &&& z)

/-- Maj(x, y, z). -/
def shaMaj (x y z : Nat) : Nat := (x &&& y) ^^^ (x &&& z) ^^^ (y &&& z)

/-- Extend a 16-word block to the 64-word message schedule. -/
def sha256Expand (block : List Nat) : List Nat :=
  (List.range 48).foldl
    (fun w _ =>
      let t := w.length
      w ++ [(ssig1 (w.getD (t - 2) 0) + w.getD (t - 7) 0 +
             ssig0 (w.getD (t - 15) 0) + w.getD (t - 16) 0) % 4294967296])
    block

/-- One compression round over the 8-word working state. -/
def sha256Round (st : List Nat) (kw : Nat × Nat) : List Nat :=
  match st with
  | [a, b, c, d, e, f, g, h] =>
    let t1 := (h + bsig1 e + shaCh e f g + kw.1 + kw.2) % 4294967296
    let t2 := (bsig0 a + shaMaj a b c) % 4294967296
    [(t1 + t2) % 4294967296, a, b, c, (d + t1) % 4294967296, e, f, g]
  | _ => st

/-- Compress one 16-word block into the running hash. -/
def sha256Compress (hs : List Nat) (block : List Nat) : List Nat :=
  let fin := ((sha256K.zip (sha256Expand block)).foldl sha256Round hs)
  (hs.zip fin).map (fun p => (p.1 + p.2) % 4294967296)

/-- Big-endian byte rendering of `n` on `count` bytes. -/
def beBytes (count n : Nat) : List Nat :=
  (List.range count).reverse.map (fun i => (n >>> (8 * i)) % 256)

/-- SHA-256 padding: `0x80`, zeros to 56 mod 64, 8-byte big-endian bit
length. -/
def sha256Pad (msg : List Nat) : List Nat :=
  let L := msg.length
  let zeros := (56 + 64 - (L + 1) % 64) % 64
  msg ++ [0x80] ++ List.replicate zeros 0 ++ beBytes 8 (8 * L)

/-- Group bytes into big-endian 32-bit words. -/
def toWords : List Nat → List Nat
  | b0 :: b1 :: b2 :: b3 :: rest =>
    ((b0 <<< 24) ||| (b1 <<< 16) ||| (b2 <<< 8) ||| b3) :: toWords rest
  | _ => []

/-- Split a word list into 16-word blocks (fuel-driven for definitional
reduction; the fuel is always sufficient). -/
def toBlocksAux : Nat → List Nat → List (List Nat)
  | 0, _ => []
  | fuel + 1, ws => if ws = [] then [] else ws.take 16 :: toBlocksAux fuel (ws.drop 16)

/-- Split a word list into 16-word blocks. -/
def toBlocks (ws : List Nat) : List (List Nat) := toBlocksAux ws.length ws

/-- SHA-256 of a byte list, as a 32-byte list. -/
def sha256 (msg : List Nat) : List Nat :=
  (((toBlocks (toWords (sha256Pad msg))).foldl sha256Compress sha256H0).map
    (beBytes 4)).flatten

example : sha256 (strBytes "abc") =
    [0xba, 0x78, 0x16, 0xbf, 0x8f, 0x01, 0xcf, 0xea, 0x41, 0x41, 0x40, 0xde,
     0x5d, 0xae, 0x22, 0x23, 0xb0, 0x03, 0x61, 0xa3, 0x96, 0x17, 0x7a, 0x9c,
     0xb4, 0x10, 0xff, 0x61, 0xf2, 0x00, 0x15, 0xad] := by rfl

/-- HMAC-SHA256 (RFC 2104, block size 64). -/
def hmacSha256 (key msg : List Nat) : List Nat :=
  let k0 := if 64 < key.length then sha256 key else key
  let kpad := k0 ++ List.replicate (64 - k0.length) 0
  let ipadded := kpad.map (fun b => b ^^^ 0x36)
  let opadded := kpad.map (fun b => b ^^^ 0x5c)
  sha256 (opadded ++ sha256 (ipadded ++ msg))

example : hmacSha256 (List.replicate 20 0x0b) (strBytes "Hi There") =
    [0xb0, 0x34, 0x4c, 0x61, 0xd8, 0xdb, 0x38, 0x53, 0x5c, 0xa8, 0xaf, 0xce,
     0xaf, 0x0b, 0xf1, 0x2b, 0x88, 0x1d, 0xc2, 0x00, 0xc9, 0x83, 0x3d, 0xa7,
     0x26, 0xe9, 0x37, 0x6c, 0x2e, 0x32, 0xcf, 0xf7] := by rfl

/-- The Base64 alphabet. -/
def b64Char (n : Nat) : Char :=
  "ABCDEFGHIJKLMNOPQRSTUVWXYZabcdefghijklmnopqrstuvwxyz0123456789+/".data.getD n 'A'

/-- Base64 encoding of a byte list (standard alphabet, `=` padding). -/
def b64Chars : List Nat → List Char
  | b0 :: b1 :: b2 :: rest =>
    b64Char (b0 >>> 2) :: b64Char (((b0 &&& 3) <<< 4) ||| (b1 >>> 4)) ::
      b64Char (((b1 &&& 15) <<< 2) ||| (b2 >>> 6)) :: b64Char (b2 &&& 63) ::
        b64Chars rest
  | [b0, b1] =>
    [b64Char (b0 >>> 2), b64Char (((b0 &&& 3) <<< 4) ||| (b1 >>> 4)),
     b64Char ((b1 &&& 15) <<< 2), '=']
  | [b0] =>
    [b64Char (b0 >>> 2), b64Char ((b0 &&& 3) <<< 4), '=', '=']
  | [] => []

/-- `base64.b64encode(...).decode()`. -/
def b64Encode (bs : List Nat) : String := ⟨b64Chars bs⟩

example : b64Encode (strBytes "hello") = "aGVsbG8=" := by rfl

/-! ## Secret hash and request parameters (`CognitoClient`) -/

/-- Python truthiness of `self.client_secret : Optional[str]`. -/
def secretConfigured : Option String → Bool
  | none => false
  | some v => v ≠ ""

/-- `CognitoClient._get_secret_hash`: `None` without a configured client
secret, otherwise
`base64.b64encode(hmac.new(secret, username + client_id, sha256).digest())`. -/
def getSecretHash (clientSecret : Option String) (clientId username : String) :
    Option String :=
  if !secretConfigured clientSecret then none
  else some (b64Encode (hmacSha256 (strBytes (clientSecret.getD ""))
    (strBytes (username ++ clientId))))

/-- `sign_in`: the `AuthParameters` dict, with `SECRET_HASH` attached
exactly when a client secret is configured. -/
def signInAuthParameters (clientSecret : Option String)
    (clientId username password : String) : List (String × String) :=
  let base := [("USERNAME", username), ("PASSWORD", password)]
  if secretConfigured clientSecret then
    base ++ [("SECRET_HASH", (getSecretHash clientSecret clientId username).getD "")]
  else base

/-- `sign_up`: the top-level params dict (attribute list elided), with
`SecretHash` attached exactly when a client secret is configured. -/
def signUpParams (clientSecret : Option String)
    (clientId username password : String) : List (String × String) :=
  let base := [("ClientId", clientId), ("Username", username), ("Password", password)]
  if secretConfigured clientSecret then
    base ++ [("SecretHash", (getSecretHash clientSecret clientId username).getD "")]
  else base

/-- `refresh_tokens`: the `AuthParameters` dict. -/
def refreshAuthParameters (clientSecret : Option String)
    (clientId refreshToken username : String) : List (String × String) :=
  let base := [("REFRESH_TOKEN", refreshToken)]
  if secretConfigured clientSecret then
    base ++ [("SECRET_HASH", (getSecretHash clientSecret clientId username).getD "")]
  else base

/-- `forgot_password`: the params dict. -/
def forgotPasswordParams (clientSecret : Option String)
    (clientId username : String) : List (String × String) :=
  let base := [("ClientId", clientId), ("Username", username)]
  if secretConfigured clientSecret then
    base ++ [("SecretHash", (getSecretHash clientSecret clientId username).getD "")]
  else base

/-- `confirm_forgot_password`: the params dict. -/
def confirmForgotPasswordParams (clientSecret : Option String)
    (clientId username code newPassword : String) : List (String × String) :=
  let base := [("ClientId", clientId), ("Username", username),
    ("ConfirmationCode", code), ("Password", newPassword)]
  if secretConfigured clientSecret then
    base ++ [("SecretHash", (getSecretHash clientSecret clientId username).getD "")]
  else base

/-! ## Concrete instances used by witnesses and counterexamples -/

/-- The 42-row database used to witness the pagination example. -/
def dbC8 : List Project := (List.range 42).map (fun i => ⟨Int.ofNat i, "u", Int.ofNat i⟩)

/-- No query filters. -/
def noFilters : ProjectQueryFilters := ⟨none, none, none, none⟩

/-- A settings state with Parameter Store enabled and Secrets-Manager
fields injected. -/
def s0C4 : Settings :=
  { ENVIRONMENT := "development", USE_AWS_PARAMETER_STORE := true,
    DATABASE_URL := "", DB_HOST := "dbhost", DB_PORT := "5432",
    DB_USERNAME := "admin", DB_PASSWORD := "pw", DB_NAME := "postgres" }

/-- A settings state with Parameter Store enabled and no
Secrets-Manager fields. -/
def s1C4 : Settings :=
  { ENVIRONMENT := "development", USE_AWS_PARAMETER_STORE := true,
    DATABASE_URL := "", DB_HOST := "", DB_PORT := "5432",
    DB_USERNAME := "", DB_PASSWORD := "", DB_NAME := "postgres" }

/-- A Parameter Store response supplying a `database_url`. -/
def env0C4 : ConfigEnv :=
  { psParams := [("database_url", "postgresql://ps-url")],
    envFileExists := false, envFileGet := fun _ => none }

/-- A production settings state with Parameter Store disabled. -/
def s2C5 : Settings :=
  { ENVIRONMENT := "production", USE_AWS_PARAMETER_STORE := false,
    DATABASE_URL := "", DB_HOST := "dbhost", DB_PORT := "5432",
    DB_USERNAME := "admin", DB_PASSWORD := "pw", DB_NAME := "postgres" }

/-! ## Theorems -/

/-- C1: for every string uri passed to `_parse_s3_uri` that parses into a
bucket and a key, if the key contains `".."` or begins with `"/"`, the
call raises `ValueError` — it returns no `(bucket, key)` pair — and
consequently `_get_s3_content` answers 500 without consulting the object
store at all (the result is the same for every possible `fetch`). -/
theorem C1_traversal_rejected (uri : String) (b k : List Char)
    (h : s3Match uri.data = some (b, k))
    (hk : hasDotDot k = true ∨ k.head? = some '/') :
    (∀ bk : String × String, parseS3Uri uri ≠ .ok bk) ∧
    (∃ e, parseS3Uri uri = .error e) ∧
    (∀ (α : Type) (fetch : String → String → Option α),
      getS3Content fetch (some uri) = .error 500) := by
  have hcond : (hasDotDot k || k.head? == some '/') = true := by
    rcases hk with h1 | h1
    · simp [h1]
    · simp [h1]
  have hparse : parseS3Uri uri = .error .invalidBucket ∨
      parseS3Uri uri = .error .pathTraversal := by
    unfold parseS3Uri
    rw [h]
    by_cases hb : bucketPyMatch b
    · right; simp [hb, hcond]
    · left; simp [hb]
  rcases hparse with hp | hp <;>
    exact ⟨fun bk hbk => by simp [hp] at hbk, ⟨_, hp⟩,
      fun α fetch => by simp [getS3Content, hp]⟩

/-- C1 witness: the concrete URI `s3://bucket/a/../b`. -/
theorem C1_traversal_rejected_witness :
    (∀ bk : String × String, parseS3Uri "s3://bucket/a/../b" ≠ .ok bk) ∧
    (∃ e, parseS3Uri "s3://bucket/a/../b" = .error e) ∧
    (∀ (α : Type) (fetch : String → String → Option α),
      getS3Content fetch (some "s3://bucket/a/../b") = .error 500) :=
  C1_traversal_rejected "s3://bucket/a/../b" "bucket".data "a/../b".data
    (by rfl) (Or.inl (by rfl))

/-- C3 counterexample: the URI `s3://abc\n/key` parses into the bucket
`"abc\n"`, which does **not** match `[a-z0-9][a-z0-9.-]{1,61}[a-z0-9]`
against the whole bucket string, yet `_parse_s3_uri` accepts it: Python's
`$` also matches just before a trailing newline, so `re.match` on the
bucket succeeds. -/
theorem C3_bucket_counterexample :
    s3Match ("s3://abc\n/key".data) = some ("abc\n".data, "key".data) ∧
    bucketWholeMatch ("abc\n".data) = false ∧
    parseS3Uri "s3://abc\n/key" = .ok ("abc\n", "key") :=
  ⟨by rfl, by rfl, by rfl⟩

/-- C3 (amended): for every URI that regex-parses into `(bucket, key)`,
the call raises `ValueError` (invalid bucket) exactly when the bucket
does not match `[a-z0-9][a-z0-9.-]{1,61}[a-z0-9]` under Python's
`re.match(r"^...$")` semantics — the pattern matched against the whole
bucket string, allowing one trailing newline; buckets that do match are
accepted by the bucket check. -/
theorem C3_bucket_validation (uri : String) (b k : List Char)
    (h : s3Match uri.data = some (b, k)) :
    (bucketPyMatch b = false → parseS3Uri uri = .error .invalidBucket) ∧
    (bucketPyMatch b = true → parseS3Uri uri ≠ .error .invalidBucket) := by
  unfold parseS3Uri
  rw [h]
  constructor
  · intro hb
    simp [hb]
  · intro hb
    simp only [hb]
    split
    · simp_all
    · split <;> simp

/-- C3 witness: a rejected uppercase bucket and an accepted valid one. -/
theorem C3_bucket_validation_witness :
    parseS3Uri "s3://MyBucket/key" = .error .invalidBucket ∧
    parseS3Uri "s3://my-bucket/key" ≠ .error .invalidBucket :=
  ⟨(C3_bucket_validation "s3://MyBucket/key" "MyBucket".data "key".data
      (by rfl)).1 (by rfl),
   (C3_bucket_validation "s3://my-bucket/key" "my-bucket".data "key".data
      (by rfl)).2 (by rfl)⟩

/-- C7: `mask_sensitive_data` rewrites the value of every entry whose
lowercased key is in `SENSITIVE_FIELDS` — strings longer than 8
characters become `first4 ++ "****" ++ last4`, every other value becomes
`"****"` — and leaves entries under non-sensitive keys unchanged (and
never adds or removes entries). -/
theorem C7_mask_sensitive (d : List (String × LogValue)) (i : Nat)
    (k : String) (v : LogValue) (h : d[i]? = some (k, v)) :
    (maskSensitiveData d).length = d.length ∧
    (SENSITIVE_FIELDS.contains (pyLower k) = true →
      (∀ s, v = .str s → 8 < s.length →
        (maskSensitiveData d)[i]? =
          some (k, LogValue.str (s.take 4 ++ "****" ++ s.drop (s.length - 4)))) ∧
      (∀ s, v = .str s → s.length ≤ 8 →
        (maskSensitiveData d)[i]? = some (k, LogValue.str "****")) ∧
      (∀ t, v = .other t →
        (maskSensitiveData d)[i]? = some (k, LogValue.str "****"))) ∧
    (SENSITIVE_FIELDS.contains (pyLower k) = false →
      (maskSensitiveData d)[i]? = some (k, v)) := by
  refine ⟨by simp [maskSensitiveData], ?_, ?_⟩
  · intro hs
    refine ⟨?_, ?_, ?_⟩
    · intro s hv hlen
      subst hv
      unfold maskSensitiveData
      rw [List.getElem?_map, h]
      simp at hs
      simp [hs, maskValue, hlen]
    · intro s hv hlen
      subst hv
      unfold maskSensitiveData
      rw [List.getElem?_map, h]
      simp at hs
      have hnot : ¬ 8 < s.length := by omega
      simp [hs, maskValue, hnot]
    · intro t hv
      subst hv
      unfold maskSensitiveData
      rw [List.getElem?_map, h]
      simp at hs
      simp [hs, maskValue]
  · intro hs
    unfold maskSensitiveData
    rw [List.getElem?_map, h]
    simp at hs
    simp [hs]

/-- C7 witness: a long sensitive string, a short one, a non-string
sensitive value and a non-sensitive entry. -/
theorem C7_mask_sensitive_witness :
    (maskSensitiveData [("Password", .str "supersecret1"), ("user", .str "bob")])[0]? =
      some ("Password", LogValue.str "supe****ret1") ∧
    (maskSensitiveData [("Password", .str "supersecret1"), ("user", .str "bob")])[1]? =
      some ("user", LogValue.str "bob") ∧
    (maskSensitiveData [("token", .str "short"), ("code", .other 7)])[0]? =
      some ("token", LogValue.str "****") ∧
    (maskSensitiveData [("token", .str "short"), ("code", .other 7)])[1]? =
      some ("code", LogValue.str "****") := by
  refine ⟨?_, ?_, ?_, ?_⟩
  · exact ((C7_mask_sensitive [("Password", .str "supersecret1"), ("user", .str "bob")]
      0 "Password" (.str "supersecret1") (by rfl)).2.1 (by rfl)).1
        "supersecret1" rfl (by decide)
  · exact (C7_mask_sensitive [("Password", .str "supersecret1"), ("user", .str "bob")]
      1 "user" (.str "bob") (by rfl)).2.2 (by rfl)
  · exact ((C7_mask_sensitive [("token", .str "short"), ("code", .other 7)]
      0 "token" (.str "short") (by rfl)).2.1 (by rfl)).2.1 "short" rfl (by decide)
  · exact ((C7_mask_sensitive [("token", .str "short"), ("code", .other 7)]
      1 "code" (.other 7) (by rfl)).2.1 (by rfl)).2.2 7 rfl

/-- Exact ceiling division on naturals: `(t + p - 1) / p` is the least
`m` with `t ≤ m * p`. -/
lemma ceilDiv_spec (t p : Nat) (hp : 0 < p) :
    t ≤ ((t + p - 1) / p) * p ∧ ∀ m, t ≤ m * p → (t + p - 1) / p ≤ m := by
  constructor
  · have h1 : p * ((t + p - 1) / p) + (t + p - 1) % p = t + p - 1 :=
      Nat.div_add_mod _ _
    have h2 : (t + p - 1) % p < p := Nat.mod_lt _ hp
    have h3 : p * ((t + p - 1) / p) = ((t + p - 1) / p) * p := Nat.mul_comm _ _
    rw [h3] at h1
    generalize hx : ((t + p - 1) / p) * p = x at *
    omega
  · intro m hm
    by_contra hlt
    push_neg at hlt
    have h4 : m + 1 ≤ (t + p - 1) / p := hlt
    have h5 : (m + 1) * p ≤ t + p - 1 := (Nat.le_div_iff_mul_le hp).mp h4
    have h6 : (m + 1) * p = m * p + p := by ring
    rw [h6] at h5
    generalize hx : m * p = x at *
    omega

/-- C8: for every filtered query, `total_pages` is the ceiling of
`total / page_size` (characterised exactly: the least number of pages of
size `page_size` covering `total` rows) whenever `page_size` is positive;
a zero `page_size` yields zero `total_pages`; the items list never
exceeds `page_size` entries; and with `page_size = 10` and 42 matching
rows the endpoint reports 5 total pages. -/
theorem C8_pagination (db : List Project) (page pageSize : Nat)
    (f : ProjectQueryFilters) :
    (pageSize = 0 → (listProjects db page pageSize f).total_pages = 0) ∧
    (0 < pageSize →
      (listProjects db page pageSize f).total ≤
        (listProjects db page pageSize f).total_pages * pageSize ∧
      ∀ m, (listProjects db page pageSize f).total ≤ m * pageSize →
        (listProjects db page pageSize f).total_pages ≤ m) ∧
    (listProjects db page pageSize f).items.length ≤ pageSize ∧
    (pageSize = 10 → (listProjects db page pageSize f).total = 42 →
      (listProjects db page pageSize f).total_pages = 5) := by
  have htp : (listProjects db page pageSize f).total_pages =
      if pageSize ≠ 0 then
        ((listProjects db page pageSize f).total + pageSize - 1) / pageSize
      else 0 := rfl
  refine ⟨?_, ?_, ?_, ?_⟩
  · intro h0
    rw [htp]
    simp [h0]
  · intro hpos
    have hne : pageSize ≠ 0 := by omega
    rw [htp, if_pos hne]
    exact ceilDiv_spec (listProjects db page pageSize f).total pageSize hpos
  · exact List.length_take_le _ _
  · intro hps hts
    subst hps
    rw [htp, hts]
    norm_num

/-- C8 witness: page 1, page size 10, 42 matching rows. -/
theorem C8_pagination_witness :
    (listProjects dbC8 1 10 noFilters).total = 42 ∧
    (listProjects dbC8 1 10 noFilters).total_pages = 5 ∧
    (listProjects dbC8 1 10 noFilters).items.length ≤ 10 :=
  ⟨by rfl, (C8_pagination dbC8 1 10 noFilters).2.2.2 rfl (by rfl),
    (C8_pagination dbC8 1 10 noFilters).2.2.1⟩

/-- With pairwise-distinct primary keys, removing the first row keyed
`id` is the same as filtering out every row keyed `id`. -/
lemma removeFirst_eq_filter {α : Type} (rows : List (Nat × α)) (id : Nat)
    (hnodup : (rows.map Prod.fst).Nodup) :
    removeFirst (fun r => r.1 == id) rows = rows.filter (fun r => r.1 != id) := by
  induction rows with
  | nil => rfl
  | cons x xs ih =>
    have hx1 : x.1 ∉ xs.map Prod.fst := (List.nodup_cons.mp (by simpa using hnodup)).1
    have htail : (xs.map Prod.fst).Nodup := (List.nodup_cons.mp (by simpa using hnodup)).2
    by_cases hx : x.1 = id
    · have hothers : ∀ r ∈ xs, r.1 ≠ id := by
        intro r hr hreq
        exact hx1 (by rw [hx, ← hreq]; exact List.mem_map.mpr ⟨r, hr, rfl⟩)
      rw [removeFirst, if_pos (by simp [hx]), List.filter_cons,
        if_neg (by simp [hx])]
      exact (List.filter_eq_self.mpr (fun a ha => by simp [hothers a ha])).symm
    · rw [removeFirst, if_neg (by simp [hx]), List.filter_cons,
        if_pos (by simp [hx]), ih htail]

/-- C10: `SQLAlchemyRepository.delete` — when no row has primary key
`id`, it returns `False` and the session is completely unchanged; when a
row exists, it returns `True`, the resulting store is the original with
exactly the rows keyed `id` removed (every other row survives), and
`exists(id)` is `False` afterwards. -/
theorem C10_repo_delete {α : Type} (rows : List (Nat × α)) (id : Nat)
    (hnodup : (rows.map Prod.fst).Nodup) :
    (repoGetById rows id = none → repoDelete rows id = (rows, false)) ∧
    (∀ e, repoGetById rows id = some e →
      (repoDelete rows id).2 = true ∧
      (repoDelete rows id).1 = rows.filter (fun r => r.1 != id) ∧
      repoExists (repoDelete rows id).1 id = false ∧
      (∀ r ∈ rows, r.1 ≠ id → r ∈ (repoDelete rows id).1)) := by
  constructor
  · intro h
    unfold repoDelete
    rw [h]
  · intro e he
    have hd : repoDelete rows id = (removeFirst (fun r => r.1 == id) rows, true) := by
      unfold repoDelete
      rw [he]
    have hf := removeFirst_eq_filter rows id hnodup
    have hnone : (rows.filter (fun r => r.1 != id)).find? (fun r => r.1 == id) = none :=
      List.find?_eq_none.mpr (by
        intro x hx
        have := (List.mem_filter.mp hx).2
        simpa using this)
    refine ⟨by rw [hd], by rw [hd]; exact hf, ?_, ?_⟩
    · rw [hd]
      simp only [repoExists, repoGetById, hf, hnone, Option.isSome_none]
    · intro r hr hne
      rw [hd]
      simp only [hf]
      exact List.mem_filter.mpr ⟨hr, by simp [hne]⟩

/-- C10 witness: deleting an existing and a missing primary key from a
concrete two-row store. -/
theorem C10_repo_delete_witness :
    (repoDelete ([(1, "a"), (2, "b")] : List (Nat × String)) 1).2 = true ∧
    (repoDelete ([(1, "a"), (2, "b")] : List (Nat × String)) 1).1 = [(2, "b")] ∧
    repoExists (repoDelete ([(1, "a"), (2, "b")] : List (Nat × String)) 1).1 1 = false ∧
    repoDelete ([(1, "a"), (2, "b")] : List (Nat × String)) 3 = ([(1, "a"), (2, "b")], false) := by
  have h := (C10_repo_delete ([(1, "a"), (2, "b")] : List (Nat × String)) 1
    (by decide)).2 (1, "a") (by rfl)
  have h0 := (C10_repo_delete ([(1, "a"), (2, "b")] : List (Nat × String)) 3
    (by decide)).1 (by rfl)
  exact ⟨h.1, by rw [h.2.1]; rfl, h.2.2.1, h0⟩

/-- The attempt counter of the retry loop never exceeds `maxAttempts`. -/
lemma retryCall_snd_le {E α : Type} (retryOn : E → Bool) (maxAttempts : Nat)
    (f : Nat → Except E α) :
    ∀ fuel attempt, maxAttempts - attempt ≤ fuel → attempt ≤ maxAttempts →
      (retryCall retryOn maxAttempts f attempt).2 ≤ maxAttempts := by
  intro fuel
  induction fuel with
  | zero =>
    intro attempt h1 h2
    rw [retryCall]
    cases hf : f attempt with
    | ok a => simpa using h2
    | error e =>
      dsimp only
      rw [dif_neg (by omega)]
      simpa using h2
  | succ n ih =>
    intro attempt h1 h2
    rw [retryCall]
    cases hf : f attempt with
    | ok a => simpa using h2
    | error e =>
      dsimp only
      by_cases hc : retryOn e = true ∧ attempt < maxAttempts
      · rw [dif_pos hc]
        exact ih (attempt + 1) (by omega) (by omega)
      · rw [dif_neg hc]
        simpa using h2

/-- C6: the `cognito_retry` decorator performs at most 3 attempts; a
first attempt failing with a non-retryable exception — which includes
every business error produced by `sign_in`'s `ClientError` mapping —
propagates immediately after that single attempt; and the retryable set
is exactly the two transport-level errors. -/
theorem C6_retry_policy {α : Type} (f : Nat → Except CognitoError α) :
    ((cognitoRetryCall f).2 ≤ 3) ∧
    (∀ e, f 1 = .error e → isRetryableCognito e = false →
      cognitoRetryCall f = (.error e, 1)) ∧
    (∀ e, isRetryableCognito e = true ↔
      (e = .endpointConnectionError ∨ e = .connectTimeoutError)) ∧
    (∀ code msg, isRetryableCognito (mapSignInClientError code msg) = false) := by
  refine ⟨?_, ?_, ?_, ?_⟩
  · exact retryCall_snd_le isRetryableCognito 3 f 3 1 (by omega) (by omega)
  · intro e h1 h2
    unfold cognitoRetryCall
    rw [retryCall, h1]
    dsimp only
    rw [dif_neg (by simp [h2])]
  · intro e
    cases e <;> simp [isRetryableCognito]
  · intro code msg
    unfold mapSignInClientError
    split_ifs <;> rfl

/-- C6 witness: a wrong-password failure on the first attempt is not
retried. -/
theorem C6_retry_policy_witness :
    cognitoRetryCall (fun _ => (.error .invalidCredentials : Except CognitoError Unit)) =
      (.error .invalidCredentials, 1) :=
  (C6_retry_policy (fun _ => (.error .invalidCredentials : Except CognitoError Unit))).2.1
    .invalidCredentials rfl rfl

/-- Every digit produced by `natDigitsAux` is below 10 (given enough
fuel). -/
lemma natDigitsAux_lt_ten :
    ∀ fuel n, n ≤ fuel → ∀ d ∈ natDigitsAux fuel n, d < 10 := by
  intro fuel
  induction fuel with
  | zero =>
    intro n h d hd
    simp only [natDigitsAux, List.mem_singleton] at hd
    omega
  | succ fuel ih =>
    intro n h d hd
    by_cases hn : n < 10
    · simp [natDigitsAux, hn] at hd
      omega
    · simp only [natDigitsAux, if_neg hn, List.mem_append] at hd
      rcases hd with hd | hd
      · have hlt : n / 10 < n := Nat.div_lt_self (by omega) (by omega)
        exact ih (n / 10) (by omega) d hd
      · simp at hd
        omega

/-- Base-10 digit decoding, the inverse of `natDigitsAux`. -/
def decDigits (ds : List Nat) : Nat := ds.foldl (fun a d => 10 * a + d) 0

/-- Decoding a digit list extended by one digit. -/
lemma decDigits_append (ds : List Nat) (d : Nat) :
    decDigits (ds ++ [d]) = 10 * decDigits ds + d := by
  simp [decDigits, List.foldl_append]

/-- Decoding inverts digit rendering. -/
lemma decDigits_natDigitsAux :
    ∀ fuel n, n ≤ fuel → decDigits (natDigitsAux fuel n) = n := by
  intro fuel
  induction fuel with
  | zero =>
    intro n h
    have : n = 0 := by omega
    subst this
    rfl
  | succ fuel ih =>
    intro n h
    by_cases hn : n < 10
    · simp [natDigitsAux, hn, decDigits]
    · have hlt : n / 10 < n := Nat.div_lt_self (by omega) (by omega)
      rw [natDigitsAux, if_neg hn, decDigits_append, ih (n / 10) (by omega)]
      omega

/-- Digit rendering is injective. -/
lemma natDigits_injective (a b : Nat) (h : natDigits a = natDigits b) : a = b := by
  have ha := decDigits_natDigitsAux a a (Nat.le_refl a)
  have hb := decDigits_natDigitsAux b b (Nat.le_refl b)
  unfold natDigits at h
  rw [← ha, ← hb, h]

/-- `natDigitsAux` never returns the empty list. -/
lemma natDigitsAux_ne_nil (fuel n : Nat) : natDigitsAux fuel n ≠ [] := by
  cases fuel with
  | zero => simp [natDigitsAux]
  | succ fuel =>
    by_cases hn : n < 10 <;> simp [natDigitsAux, hn]

/-- Distinct digits render to distinct characters. -/
lemma digitChar_inj : ∀ d1, d1 < 10 → ∀ d2, d2 < 10 →
    digitChar d1 = digitChar d2 → d1 = d2 := by decide

/-- No digit renders to the minus sign. -/
lemma digitChar_ne_dash : ∀ d, d < 10 → digitChar d ≠ '-' := by decide

/-- `List.map digitChar` is injective on digit lists. -/
lemma map_digitChar_inj :
    ∀ xs ys : List Nat, (∀ d ∈ xs, d < 10) → (∀ d ∈ ys, d < 10) →
      xs.map digitChar = ys.map digitChar → xs = ys := by
  intro xs
  induction xs with
  | nil =>
    intro ys _ _ h
    cases ys with
    | nil => rfl
    | cons y ys => simp at h
  | cons x xs ih =>
    intro ys hxs hys h
    cases ys with
    | nil => simp at h
    | cons y ys =>
      simp only [List.map_cons, List.cons.injEq] at h
      have hx : x = y := digitChar_inj x (hxs x (by simp)) y (hys y (by simp)) h.1
      have ht : xs = ys :=
        ih ys (fun d hd => hxs d (by simp [hd])) (fun d hd => hys d (by simp [hd])) h.2
      rw [hx, ht]

/-- `natRepr` is injective. -/
lemma natRepr_injective (a b : Nat) (h : natRepr a = natRepr b) : a = b := by
  have hdata : (natDigits a).map digitChar = (natDigits b).map digitChar :=
    congrArg String.data h
  exact natDigits_injective a b
    (map_digitChar_inj _ _ (natDigitsAux_lt_ten a a (Nat.le_refl a))
      (natDigitsAux_lt_ten b b (Nat.le_refl b)) hdata)

/-- The rendering of a natural number starts with a digit character, in
particular not with a minus sign. -/
lemma natRepr_head (n : Nat) :
    ∃ d ds, natDigits n = d :: ds ∧ d < 10 := by
  rcases List.exists_cons_of_ne_nil (natDigitsAux_ne_nil n n) with ⟨d, ds, hds⟩
  exact ⟨d, ds, hds, natDigitsAux_lt_ten n n (Nat.le_refl n) d (by rw [hds]; simp)⟩

/-- `intRepr` (Python `str()` on integers) is injective. -/
lemma intRepr_injective (i j : Int) (h : intRepr i = intRepr j) : i = j := by
  unfold intRepr at h
  rcases natRepr_head i.natAbs with ⟨di, dsi, hdi, hdilt⟩
  rcases natRepr_head j.natAbs with ⟨dj, dsj, hdj, hdjlt⟩
  split_ifs at h with hi hj hj
  · have hdata := congrArg String.data h
    simp only [String.data_append] at hdata
    have := List.append_cancel_left hdata
    have habs := natRepr_injective _ _ (String.ext this)
    omega
  · have hdata := congrArg String.data h
    simp only [String.data_append] at hdata
    unfold natRepr at hdata
    rw [hdj] at hdata
    simp only [List.map_cons] at hdata
    have : '-' = digitChar dj := by
      have := congrArg (fun l => l.head?) hdata
      simpa using this
    exact absurd this.symm (digitChar_ne_dash dj hdjlt)
  · have hdata := congrArg String.data h
    simp only [String.data_append] at hdata
    unfold natRepr at hdata
    rw [hdi] at hdata
    simp only [List.map_cons] at hdata
    have : digitChar di = '-' := by
      have := congrArg (fun l => l.head?) hdata
      simpa using this
    exact absurd this (digitChar_ne_dash di hdilt)
  · have habs := natRepr_injective _ _ h
    omega

/-- C2: `_get_project_item` reads exactly the composite key
`(USER#user_id, PROJ#project_id)`: a missing item at that exact key is an
HTTP 404, any item returned is the one stored at that exact key, and the
composite keys of any two distinct `(project_id, user_id)` pairs are
distinct — so the item can never come from another pair's key. -/
theorem C2_exact_key_lookup (store : String → String → String → Option ProjItem)
    (tableName : String) (pid : Int) (uid : String) :
    (store tableName ("USER#" ++ uid) ("PROJ#" ++ intRepr pid) = none →
      getProjectItem store tableName pid uid = .error 404) ∧
    (∀ item, getProjectItem store tableName pid uid = .ok item →
      store tableName ("USER#" ++ uid) ("PROJ#" ++ intRepr pid) = some item) ∧
    (∀ (pid' : Int) (uid' : String), (pid', uid') ≠ (pid, uid) →
      ("USER#" ++ uid', "PROJ#" ++ intRepr pid') ≠
        ("USER#" ++ uid, "PROJ#" ++ intRepr pid)) := by
  refine ⟨?_, ?_, ?_⟩
  · intro h
    unfold getProjectItem dynamodbGetItem
    dsimp only
    rw [h]
  · intro item h
    unfold getProjectItem dynamodbGetItem at h
    dsimp only at h
    cases hs : store tableName ("USER#" ++ uid) ("PROJ#" ++ intRepr pid) with
    | none => rw [hs] at h; simp at h
    | some item0 =>
      rw [hs] at h
      by_cases h0 : item0 = []
      · simp [h0] at h
      · simp [h0] at h
        rw [h]
  · intro pid' uid' hne hkey
    apply hne
    have h1 : "USER#" ++ uid' = "USER#" ++ uid := congrArg Prod.fst hkey
    have h2 : "PROJ#" ++ intRepr pid' = "PROJ#" ++ intRepr pid := congrArg Prod.snd hkey
    have hu : uid' = uid := by
      have := congrArg String.data h1
      simp only [String.data_append] at this
      exact String.ext (List.append_cancel_left this)
    have hp : pid' = pid := by
      have := congrArg String.data h2
      simp only [String.data_append] at this
      exact intRepr_injective _ _ (String.ext (List.append_cancel_left this))
    rw [hu, hp]

/-- C2 witness: a concrete single-item store, hit and characterised at
its exact key. -/
theorem C2_exact_key_lookup_witness :
    (fun (_ pk sk : String) => if pk == "USER#alice" && sk == "PROJ#7" then
      some [("Title", "demo")] else none)
      "projects" ("USER#" ++ "alice") ("PROJ#" ++ intRepr 7) =
        some [("Title", "demo")] ∧
    ("USER#" ++ "bob", "PROJ#" ++ intRepr 8) ≠
      ("USER#" ++ "alice", "PROJ#" ++ intRepr 7) :=
  ⟨(C2_exact_key_lookup
      (fun _ pk sk => if pk == "USER#alice" && sk == "PROJ#7" then
        some [("Title", "demo")] else none) "projects" 7 "alice").2.1
      [("Title", "demo")] (by rfl),
   (C2_exact_key_lookup
      (fun _ pk sk => if pk == "USER#alice" && sk == "PROJ#7" then
        some [("Title", "demo")] else none) "projects" 7 "alice").2.2 8 "bob"
      (by decide)⟩

/-- A built connection string is never empty. -/
lemma buildDatabaseUrl_ne_empty (a b c d e : String) :
    buildDatabaseUrl a b c d e ≠ "" := by
  intro h
  have hlen := congrArg String.length h
  unfold buildDatabaseUrl at hlen
  simp only [String.length_append] at hlen
  have h13 : ("postgresql://" : String).length = 13 := rfl
  have h0 : ("" : String).length = 0 := rfl
  rw [h13, h0] at hlen
  omega

/-- C4 counterexample: with Parameter Store enabled and supplying a
non-empty `database_url`, but `DB_HOST`/`DB_PASSWORD` also set, the
returned `DATABASE_URL` is the Secrets-Manager-built string, not the
Parameter Store value — the Secrets Manager block runs after, and
unconditionally overwrites, the Parameter Store value. -/
theorem C4_precedence_counterexample :
    s0C4.USE_AWS_PARAMETER_STORE = true ∧
    psDictGet env0C4.psParams "database_url" = some "postgresql://ps-url" ∧
    getSettings s0C4 env0C4 = .ok { s0C4 with DATABASE_URL :=
      ("postgresql://admin:pw@dbhost:5432/postgres?sslmode=require") } ∧
    "postgresql://admin:pw@dbhost:5432/postgres?sslmode=require" ≠
      "postgresql://ps-url" :=
  ⟨rfl, rfl, by rfl, by decide⟩

/-- C4 (amended): when Parameter Store is enabled and supplies a
non-empty `database_url`, that value is the final `DATABASE_URL` only
when `DB_HOST` and `DB_PASSWORD` are not both set; when both are set,
the Secrets-Manager-built URL wins (the code's precedence is
Secrets Manager over Parameter Store, the reverse of the spec's). -/
theorem C4_database_url_precedence (s : Settings) (env : ConfigEnv) (u : String)
    (hps : s.USE_AWS_PARAMETER_STORE = true)
    (hu : psDictGet env.psParams "database_url" = some u) (hne : u ≠ "") :
    (¬(s.DB_HOST ≠ "" ∧ s.DB_PASSWORD ≠ "") →
      getSettings s env = .ok { s with DATABASE_URL := u }) ∧
    ((s.DB_HOST ≠ "" ∧ s.DB_PASSWORD ≠ "") →
      getSettings s env = .ok { s with DATABASE_URL :=
        (buildDatabaseUrl s.DB_USERNAME s.DB_PASSWORD s.DB_HOST s.DB_PORT s.DB_NAME) }) := by
  have hparams_ne : env.psParams ≠ [] := by
    intro h0
    rw [h0] at hu
    simp [psDictGet] at hu
  have hPS : applyParameterStore s env = .ok { s with DATABASE_URL := u } := by
    unfold applyParameterStore
    rw [if_pos (by simp [hps]), if_neg hparams_ne, hu]
    dsimp only
    rw [if_pos hne]
  have hgs : getSettings s env =
      applyFallback (applySecretsManager { s with DATABASE_URL := u }) env := by
    unfold getSettings
    rw [if_neg (by simp [hps]), hPS]
  constructor
  · intro hsm
    have hSM : applySecretsManager { s with DATABASE_URL := u } =
        { s with DATABASE_URL := u } := by
      unfold applySecretsManager
      rw [if_neg (by simpa using hsm)]
    rw [hgs, hSM]
    unfold applyFallback
    rw [if_pos (by simpa using hne)]
  · intro hsm
    have hSM : applySecretsManager { s with DATABASE_URL := u } =
        { s with DATABASE_URL :=
          (buildDatabaseUrl s.DB_USERNAME s.DB_PASSWORD s.DB_HOST s.DB_PORT s.DB_NAME) } := by
      unfold applySecretsManager
      rw [if_pos (by simpa using hsm)]
    rw [hgs, hSM]
    unfold applyFallback
    have hb := buildDatabaseUrl_ne_empty s.DB_USERNAME s.DB_PASSWORD s.DB_HOST s.DB_PORT s.DB_NAME
    rw [if_pos (by simpa using hb)]

/-- C4 witness: the Parameter Store value survives when the
Secrets-Manager fields are absent, and is overridden when they are
present. -/
theorem C4_database_url_precedence_witness :
    getSettings s1C4 env0C4 = .ok { s1C4 with DATABASE_URL := "postgresql://ps-url" } ∧
    getSettings s0C4 env0C4 = .ok { s0C4 with DATABASE_URL :=
      (buildDatabaseUrl s0C4.DB_USERNAME s0C4.DB_PASSWORD s0C4.DB_HOST
        s0C4.DB_PORT s0C4.DB_NAME) } :=
  ⟨(C4_database_url_precedence s1C4 env0C4 "postgresql://ps-url" rfl rfl
      (by decide)).1 (by simp [s1C4]),
   (C4_database_url_precedence s0C4 env0C4 "postgresql://ps-url" rfl rfl
      (by decide)).2 (by simp [s0C4])⟩

/-- The Parameter Store block only ever touches `DATABASE_URL`. -/
lemma applyPS_ok_fields (s : Settings) (env : ConfigEnv) (t : Settings)
    (h : applyParameterStore s env = .ok t) :
    t.ENVIRONMENT = s.ENVIRONMENT ∧
    t.USE_AWS_PARAMETER_STORE = s.USE_AWS_PARAMETER_STORE ∧
    t.DB_HOST = s.DB_HOST ∧ t.DB_PORT = s.DB_PORT ∧
    t.DB_USERNAME = s.DB_USERNAME ∧ t.DB_PASSWORD = s.DB_PASSWORD ∧
    t.DB_NAME = s.DB_NAME := by
  unfold applyParameterStore at h
  by_cases hps : s.USE_AWS_PARAMETER_STORE
  · rw [if_pos hps] at h
    by_cases hemp : env.psParams = []
    · rw [if_pos hemp] at h
      simp at h
    · rw [if_neg hemp] at h
      cases hm : psDictGet env.psParams "database_url" with
      | none =>
        rw [hm] at h
        dsimp only at h
        injection h with h
        subst h
        simp
      | some u =>
        rw [hm] at h
        dsimp only at h
        by_cases hne : u ≠ ""
        · rw [if_pos hne] at h
          injection h with h
          subst h
          simp
        · rw [if_neg hne] at h
          injection h with h
          subst h
          simp
  · rw [if_neg hps] at h
    injection h with h
    subst h
    simp

/-- The Secrets Manager block only ever touches `DATABASE_URL`. -/
lemma applySM_fields (s : Settings) :
    (applySecretsManager s).ENVIRONMENT = s.ENVIRONMENT ∧
    (applySecretsManager s).DB_HOST = s.DB_HOST ∧
    (applySecretsManager s).DB_PORT = s.DB_PORT ∧
    (applySecretsManager s).DB_USERNAME = s.DB_USERNAME ∧
    (applySecretsManager s).DB_PASSWORD = s.DB_PASSWORD ∧
    (applySecretsManager s).DB_NAME = s.DB_NAME := by
  unfold applySecretsManager
  split_ifs <;> simp

/-- Exact characterisation of the fatal cases of the fallback block. -/
lemma applyFallback_error_iff (t : Settings) (env : ConfigEnv) :
    (∃ e, applyFallback t env = .error e) ↔
      (t.DATABASE_URL = "" ∧ (isProdOrStaging t.ENVIRONMENT = true ∨
        env.envFileExists = false ∨ ¬ fallbackFieldsOk t env)) := by
  unfold applyFallback fallbackFieldsOk
  dsimp only
  split_ifs with h1 h2 h3 h4 <;> simp_all

/-- C5: `get_settings` raises `RuntimeError` (startup aborts) in exactly
these situations: production/staging with Parameter Store disabled;
Parameter Store enabled but returning no parameters; or `DATABASE_URL`
still empty after the Parameter Store and Secrets Manager steps while
production/staging forbids fallback, the local env file is missing, or
the merged fallback fields lack one of `DB_HOST`/`DB_USERNAME`/
`DB_PASSWORD`. -/
theorem C5_fatal_startup (s : Settings) (env : ConfigEnv) :
    (∃ e, getSettings s env = .error e) ↔
      ((isProdOrStaging s.ENVIRONMENT = true ∧ s.USE_AWS_PARAMETER_STORE = false) ∨
       (s.USE_AWS_PARAMETER_STORE = true ∧ env.psParams = []) ∨
       ((resolvedAfterSM s env).DATABASE_URL = "" ∧
         (isProdOrStaging s.ENVIRONMENT = true ∨ env.envFileExists = false ∨
           ¬ fallbackFieldsOk (resolvedAfterSM s env) env))) := by
  by_cases hA : isProdOrStaging s.ENVIRONMENT = true ∧ s.USE_AWS_PARAMETER_STORE = false
  · have hgs : getSettings s env =
        .error "production/staging must enable USE_AWS_PARAMETER_STORE" := by
      unfold getSettings
      rw [if_pos (by simp [hA.1, hA.2])]
    simp [hgs, hA.1, hA.2]
  · by_cases hB : s.USE_AWS_PARAMETER_STORE = true ∧ env.psParams = []
    · have hps' : applyParameterStore s env =
          .error "failed to load database config from AWS Parameter Store" := by
        unfold applyParameterStore
        rw [if_pos (by simp [hB.1]), if_pos hB.2]
      have hgs : getSettings s env =
          .error "failed to load database config from AWS Parameter Store" := by
        unfold getSettings
        rw [if_neg (by simp [hB.1]), hps']
      simp [hgs, hB.1, hB.2]
    · have hPSok : ∃ t, applyParameterStore s env = .ok t := by
        unfold applyParameterStore
        by_cases hps : s.USE_AWS_PARAMETER_STORE
        · rw [if_pos hps]
          have hne : env.psParams ≠ [] := fun hcon => hB ⟨by simpa using hps, hcon⟩
          rw [if_neg hne]
          cases psDictGet env.psParams "database_url" with
          | none => exact ⟨s, rfl⟩
          | some u =>
            dsimp only
            by_cases hu : u ≠ ""
            · rw [if_pos hu]
              exact ⟨_, rfl⟩
            · rw [if_neg hu]
              exact ⟨s, rfl⟩
        · rw [if_neg hps]
          exact ⟨s, rfl⟩
      obtain ⟨t, ht⟩ := hPSok
      have hres : resolvedAfterSM s env = applySecretsManager t := by
        unfold resolvedAfterSM
        rw [ht]
      have hgs : getSettings s env = applyFallback (applySecretsManager t) env := by
        unfold getSettings
        rw [if_neg ?_, ht]
        intro hcon
        exact hA ⟨by simpa using hcon.1, by simpa using hcon.2⟩
      have hpres := applyPS_ok_fields s env t ht
      have hsm := applySM_fields t
      have hEnvEq : (resolvedAfterSM s env).ENVIRONMENT = s.ENVIRONMENT := by
        rw [hres, hsm.1, hpres.1]
      rw [hgs, ← hres, applyFallback_error_iff (resolvedAfterSM s env) env, hEnvEq]
      constructor
      · intro h
        exact Or.inr (Or.inr h)
      · intro h
        rcases h with h | h | h
        · exact absurd h hA
        · exact absurd h hB
        · exact h

/-- C5 has no hypotheses (it is an equivalence), but a concrete fatal
instance is still recorded: production with Parameter Store disabled
aborts startup. -/
theorem C5_fatal_startup_witness :
    (∃ e, getSettings s2C5 env0C4 = .error e) :=
  (C5_fatal_startup s2C5 env0C4).mpr (Or.inl ⟨rfl, rfl⟩)

/-- C9: `_get_secret_hash` returns `None` exactly when no client secret
is configured; with a configured secret it returns the Base64 encoding
of HMAC-SHA256 keyed by the client secret over `username + client_id`;
and the sign-up, sign-in, refresh and password-reset requests carry the
secret-hash parameter exactly when the secret is configured, with that
exact value. -/
theorem C9_secret_hash (clientSecret : Option String)
    (clientId username password refreshToken code newPassword : String) :
    (secretConfigured clientSecret = false →
      getSecretHash clientSecret clientId username = none ∧
      signInAuthParameters clientSecret clientId username password =
        [("USERNAME", username), ("PASSWORD", password)] ∧
      signUpParams clientSecret clientId username password =
        [("ClientId", clientId), ("Username", username), ("Password", password)] ∧
      refreshAuthParameters clientSecret clientId refreshToken username =
        [("REFRESH_TOKEN", refreshToken)] ∧
      forgotPasswordParams clientSecret clientId username =
        [("ClientId", clientId), ("Username", username)] ∧
      confirmForgotPasswordParams clientSecret clientId username code newPassword =
        [("ClientId", clientId), ("Username", username),
         ("ConfirmationCode", code), ("Password", newPassword)]) ∧
    (∀ sec, clientSecret = some sec → sec ≠ "" →
      getSecretHash clientSecret clientId username =
        some (b64Encode (hmacSha256 (strBytes sec) (strBytes (username ++ clientId)))) ∧
      signInAuthParameters clientSecret clientId username password =
        [("USERNAME", username), ("PASSWORD", password),
         ("SECRET_HASH", b64Encode (hmacSha256 (strBytes sec) (strBytes (username ++ clientId))))] ∧
      signUpParams clientSecret clientId username password =
        [("ClientId", clientId), ("Username", username), ("Password", password),
         ("SecretHash", b64Encode (hmacSha256 (strBytes sec) (strBytes (username ++ clientId))))] ∧
      refreshAuthParameters clientSecret clientId refreshToken username =
        [("REFRESH_TOKEN", refreshToken),
         ("SECRET_HASH", b64Encode (hmacSha256 (strBytes sec) (strBytes (username ++ clientId))))] ∧
      forgotPasswordParams clientSecret clientId username =
        [("ClientId", clientId), ("Username", username),
         ("SecretHash", b64Encode (hmacSha256 (strBytes sec) (strBytes (username ++ clientId))))] ∧
      confirmForgotPasswordParams clientSecret clientId username code newPassword =
        [("ClientId", clientId), ("Username", username),
         ("ConfirmationCode", code), ("Password", newPassword),
         ("SecretHash", b64Encode (hmacSha256 (strBytes sec) (strBytes (username ++ clientId))))]) := by
  constructor
  · intro h
    refine ⟨?_, ?_, ?_, ?_, ?_, ?_⟩ <;>
      simp [getSecretHash, signInAuthParameters, signUpParams,
        refreshAuthParameters, forgotPasswordParams,
        confirmForgotPasswordParams, h]
  · intro sec hsec hne
    subst hsec
    have hcfg : secretConfigured (some sec) = true := by
      simp [secretConfigured, hne]
    have hhash : getSecretHash (some sec) clientId username =
        some (b64Encode (hmacSha256 (strBytes sec) (strBytes (username ++ clientId)))) := by
      simp [getSecretHash, hcfg]
    refine ⟨hhash, ?_, ?_, ?_, ?_, ?_⟩ <;>
      simp [signInAuthParameters, signUpParams, refreshAuthParameters,
        forgotPasswordParams, confirmForgotPasswordParams, hcfg, hhash]

/-- C9 witness: a concrete configured secret and a missing one. -/
theorem C9_secret_hash_witness :
    getSecretHash (some "sek") "cid" "user" =
      some (b64Encode (hmacSha256 (strBytes "sek") (strBytes ("user" ++ "cid")))) ∧
    getSecretHash none "cid" "user" = none :=
  ⟨((C9_secret_hash (some "sek") "cid" "user" "pw" "rt" "c" "np").2
      "sek" rfl (by decide)).1,
   ((C9_secret_hash none "cid" "user" "pw" "rt" "c" "np").1 rfl).1⟩

end RdsPortal
